import Mathlib

/-!
Shallow embedding of the Mini-Project repository (src/regression.py,
src/data_visualisation.py): a pandas-like tabular data model, the four
model-diagnostic helpers, and the aggregation cores of the two charting
functions named by the claims.  Numeric cells are modelled by rationals,
pandas errors by an explicit error type, and the external chi-squared
survival function and VIF routine by function parameters.
-/

namespace MiniProject

/-- A cell of a DataFrame column: a string or a numeric value (Python
floats are modelled by rationals). -/
inductive Cell where
  | str (s : String)
  | num (q : ℚ)
deriving DecidableEq, Repr

/-- Errors raised by the underlying pandas/statsmodels layer. -/
inductive PdError where
  | keyError (col : String)
  | typeError
deriving DecidableEq, Repr

/-- Tabular dataset: an ordered collection of named columns. -/
structure DataFrame where
  cols : List (String × List Cell)
deriving DecidableEq, Repr

/-- The ordered list of column names (`df.columns`). -/
def DataFrame.columns (df : DataFrame) : List String := df.cols.map Prod.fst

/-- `df[c]`: column lookup; a missing column raises `KeyError`. -/
def DataFrame.getCol (df : DataFrame) (c : String) : Except PdError (List Cell) :=
  match df.cols.find? (fun p => p.1 == c) with
  | some p => .ok p.2
  | none => .error (.keyError c)

/-- `df.copy()`: a fresh value copy of the frame. -/
def DataFrame.copy (df : DataFrame) : DataFrame := df

/-- `df.loc[:, c] = vals`: overwrite column `c` or append it at the end. -/
def DataFrame.setCol (df : DataFrame) (c : String) (vals : List Cell) : DataFrame :=
  if df.columns.contains c then
    ⟨df.cols.map (fun p => if p.1 == c then (c, vals) else p)⟩
  else ⟨df.cols ++ [(c, vals)]⟩

/-- Numeric read of a column's cells, as pandas numeric aggregation needs;
a non-numeric cell where a number is required is a type error. -/
def numsOf : List Cell → Except PdError (List ℚ)
  | [] => .ok []
  | Cell.num q :: rest =>
    match numsOf rest with
    | .ok qs => .ok (q :: qs)
    | .error e => .error e
  | Cell.str _ :: _ => .error .typeError

/-- Total order used by pandas when sorting group keys (string keys
lexicographically, numeric keys numerically). -/
def Cell.le : Cell → Cell → Bool
  | Cell.num a, Cell.num b => decide (a ≤ b)
  | Cell.str a, Cell.str b => decide (a ≤ b)
  | Cell.num _, Cell.str _ => true
  | Cell.str _, Cell.num _ => false

/-- Strict version of `Cell.le`. -/
def Cell.lt : Cell → Cell → Bool
  | Cell.num a, Cell.num b => decide (a < b)
  | Cell.str a, Cell.str b => decide (a < b)
  | Cell.num _, Cell.str _ => true
  | Cell.str _, Cell.num _ => false

/-- The distinct values of a list (group keys before sorting). -/
def uniqueKeys {α : Type} [DecidableEq α] : List α → List α
  | [] => []
  | k :: rest => if k ∈ rest then uniqueKeys rest else k :: uniqueKeys rest

/-- Sum of the values attached to key `k` among the (key, value) rows. -/
def sumVals {α : Type} [DecidableEq α] (rows : List (α × ℚ)) (k : α) : ℚ :=
  (rows.filterMap (fun p => if p.1 = k then some p.2 else none)).sum

/-- `df.groupby(keyCol, as_index=False)[valCol].sum()`: one row per
distinct key, keys sorted, values summed within each group. -/
def groupbySum (df : DataFrame) (keyCol valCol : String) :
    Except PdError (List (Cell × ℚ)) :=
  match df.getCol keyCol with
  | .error e => .error e
  | .ok ks =>
    match df.getCol valCol with
    | .error e => .error e
    | .ok vcells =>
      match numsOf vcells with
      | .error e => .error e
      | .ok vs =>
        .ok ((List.insertionSort (fun a b => Cell.le a b = true)
                (uniqueKeys ks)).map (fun k => (k, sumVals (ks.zip vs) k)))

/-- The fixed canonical day ordering used when `day_order` is omitted. -/
def defaultDayOrder : List String :=
  ["Lundi", "Mardi", "Mercredi", "Jeudi", "Vendredi", "Samedi", "Dimanche"]

/-- Position of a label in the ordered category list. -/
def listPos (s : String) : List String → Option Nat
  | [] => none
  | t :: rest => if t = s then some 0 else (listPos s rest).map (· + 1)

/-- `pd.Categorical(x, categories=dayOrder)`: the category position of a
cell, `none` (the null category NaN) when the value is not listed. -/
def catPos (dayOrder : List String) : Cell → Option Nat
  | Cell.str s => listPos s dayOrder
  | Cell.num _ => none

/-- Sort key of a categorical cell: listed categories by position, the
null category after every listed one (pandas `na_position="last"`). -/
def catRank (dayOrder : List String) (c : Cell) : Nat :=
  (catPos dayOrder c).getD dayOrder.length

/-- `plot_accidents_by_day`: groups by the day column, sums the value
column, converts the day keys to an ordered categorical over `dayOrder`
(defaulting to `defaultDayOrder`) and sorts by it.  The returned rows are
the bar chart's underlying aggregated data; the chart itself is the only
other effect of the Python function. -/
def plot_accidents_by_day (df : DataFrame) (dayCol valueCol : String)
    (dayOrder : Option (List String)) : Except PdError (List (Cell × ℚ)) :=
  let dayOrder := dayOrder.getD defaultDayOrder
  match groupbySum df dayCol valueCol with
  | .error e => .error e
  | .ok dayCounts =>
    .ok (List.insertionSort
          (fun a b : Cell × ℚ => catRank dayOrder a.1 ≤ catRank dayOrder b.1)
          dayCounts)

/-- Python `x in weekend_days` for a day cell. -/
def isWeekend (weekendDays : List String) : Cell → Bool
  | Cell.str s => weekendDays.contains s
  | Cell.num _ => false

/-- The label written into the binary column. -/
def weekendLabel (weekendDays : List String) (c : Cell) : Cell :=
  if isWeekend weekendDays c then Cell.str "Weekend" else Cell.str "Weekday"

/-- `df.groupby([k1, k2], as_index=False)[valCol].sum()`: one row per
distinct key pair, keys sorted lexicographically, values summed. -/
def groupbySum2 (df : DataFrame) (k1 k2 valCol : String) :
    Except PdError (List ((Cell × Cell) × ℚ)) :=
  match df.getCol k1 with
  | .error e => .error e
  | .ok c1 =>
    match df.getCol k2 with
    | .error e => .error e
    | .ok c2 =>
      match df.getCol valCol with
      | .error e => .error e
      | .ok vcells =>
        match numsOf vcells with
        | .error e => .error e
        | .ok vs =>
          let keys := c1.zip c2
          let pairLe := fun a b : Cell × Cell =>
            Cell.lt a.1 b.1 = true ∨ (a.1 = b.1 ∧ Cell.le a.2 b.2 = true)
          .ok ((List.insertionSort pairLe (uniqueKeys keys)).map
                (fun k => (k, sumVals (keys.zip vs) k)))

/-- Mean of the stage-one sums carrying binary label `b`
(`day_grouped.groupby(binary_col)[value_col].mean()` for one group). -/
def meanBy (rows : List ((Cell × Cell) × ℚ)) (b : Cell) : ℚ :=
  let vs := rows.filterMap (fun r => if r.1.2 = b then some r.2 else none)
  vs.sum / (vs.length : ℚ)

/-- `plot_avg_accidents_weekday_vs_weekend`: the function rebinds its
local name to `df.copy()`, writes the binary Weekend/Weekday column into
that copy, sums the value column per (day, label) pair, then averages the
per-day sums per label.  The first component is the caller's frame after
the call (the original object, untouched by the write to the copy); the
second is the chart's underlying aggregated data. -/
def plot_avg_accidents_weekday_vs_weekend (df : DataFrame)
    (dayCol valueCol binaryCol : String) (weekendDays : Option (List String)) :
    DataFrame × Except PdError (List (Cell × ℚ)) :=
  let weekendDays := weekendDays.getD ["Samedi", "Dimanche"]
  let result : Except PdError (List (Cell × ℚ)) :=
    match (DataFrame.copy df).getCol dayCol with
    | .error e => .error e
    | .ok dayCells =>
      let dfc := (DataFrame.copy df).setCol binaryCol
        (dayCells.map (weekendLabel weekendDays))
      match groupbySum2 dfc dayCol binaryCol valueCol with
      | .error e => .error e
      | .ok dayGrouped =>
        .ok ((List.insertionSort (fun a b => Cell.le a b = true)
               (uniqueKeys (dayGrouped.map (fun r => r.1.2)))).map
              (fun b => (b, meanBy dayGrouped b)))
  (df, result)

/-- A fitted statsmodels result object, restricted to the attributes the
helpers read. -/
structure ModelResult where
  llf : ℚ
  aic : ℚ
  df_model : ℚ
  null_deviance : ℚ
  nobs : ℚ
deriving DecidableEq, Repr

/-- The semantic content of the lines the helpers print to stdout. -/
inductive OutEvent where
  | aicValue (name : String) (value : ℚ)
  | preferred (name : String)
  | aicTie
  | lrtHeader (name1 name2 : String)
  | lrtStatistic (value : ℚ)
  | lrtDf (value : ℚ)
  | lrtPValue (value : ℚ)
  | lrtSignificant (name : String)
  | lrtNotSignificant (name : String)
deriving DecidableEq, Repr

/-- `compare_models_aic`: prints both AIC values and which model has the
lower one (a tie is reported explicitly).  The Python body contains no
return statement, so the function's return value is `None`: the second
component, the value handed back to the caller, is always `none`. -/
def compare_models_aic (model1 model2 : ModelResult) (name1 name2 : String) :
    List OutEvent × Option (List (String × ℚ)) :=
  let aic1 := model1.aic
  let aic2 := model2.aic
  let verdict :=
    if aic1 < aic2 then OutEvent.preferred name1
    else if aic2 < aic1 then OutEvent.preferred name2
    else OutEvent.aicTie
  ([OutEvent.aicValue name1 aic1, OutEvent.aicValue name2 aic2, verdict], none)

/-- `lr_stat = 2 * (model2.llf - model1.llf)`. -/
def lrStatistic (model1 model2 : ModelResult) : ℚ :=
  2 * (model2.llf - model1.llf)

/-- `df_diff = (model2.df_model + 1) - model1.df_model`. -/
def lrDfDiff (model1 model2 : ModelResult) : ℚ :=
  (model2.df_model + 1) - model1.df_model

/-- `likelihood_ratio_test`: computes the LR statistic, the
degrees-of-freedom difference and the upper-tail chi-squared p-value
(`chi2_sf`, scipy's `stats.chi2.sf`, kept as a parameter), prints them
with a significance verdict at 0.05.  The Python body contains no return
statement, so the value handed back to the caller is `none`. -/
def likelihood_ratio_test (chi2_sf : ℚ → ℚ → ℚ) (model1 model2 : ModelResult)
    (name1 name2 : String) : List OutEvent × Option (List (String × ℚ)) :=
  let lr_stat := lrStatistic model1 model2
  let df_diff := lrDfDiff model1 model2
  let p_value := chi2_sf lr_stat df_diff
  let verdict :=
    if p_value < 5 / 100 then OutEvent.lrtSignificant name2
    else OutEvent.lrtNotSignificant name1
  ([OutEvent.lrtHeader name1 name2, OutEvent.lrtStatistic lr_stat,
    OutEvent.lrtDf df_diff, OutEvent.lrtPValue p_value, verdict], none)

/-- One row of the pseudo-R² result table. -/
structure PseudoR2Row where
  model : String
  metric : String
  value : ℚ
deriving DecidableEq, Repr

/-- `compute_pseudo_r2`: McFadden's and Cragg-Uhler's pseudo R² from the
model's log-likelihood, null deviance and observation count, returned as
a two-row table tagged with the caller-supplied model name. -/
def compute_pseudo_r2 (model : ModelResult) (model_name : String) :
    List PseudoR2Row :=
  let llh := model.llf
  let llh_null := model.null_deviance / (-2)
  let r2_ml := 1 - (llh_null / llh)
  let r2_cu := r2_ml / (1 - (llh_null / model.nobs))
  [⟨model_name, "r2ML", r2_ml⟩, ⟨model_name, "r2CU", r2_cu⟩]

/-- `df[features]`: column selection in the listed order; a feature
missing from the frame raises `KeyError`. -/
def selectCols (df : DataFrame) : List String →
    Except PdError (List (String × List Cell))
  | [] => .ok []
  | f :: rest =>
    match df.getCol f with
    | .error e => .error e
    | .ok c =>
      match selectCols df rest with
      | .error e => .error e
      | .ok tail => .ok ((f, c) :: tail)

/-- Whether a column is constant (statsmodels' `ptp == 0` check). -/
def isConstCol : List Cell → Bool
  | [] => false
  | c :: rest => rest.all (· == c)

/-- `sm.add_constant(X)`: prepend a `const` column of ones, unless some
column is already constant (the default `has_constant="skip"`). -/
def smAddConstant (X : List (String × List Cell)) : List (String × List Cell) :=
  if X.any (fun p => isConstCol p.2) then X
  else
    let n := (X.headD ("", [])).2.length
    ("const", List.replicate n (Cell.num 1)) :: X

/-- `compute_vif`: selects the feature columns, optionally prepends the
constant, and tabulates one (variable name, VIF) row per column.  The
numeric VIF routine (`variance_inflation_factor`, an external statsmodels
regression) is kept as a parameter `vf`. -/
def compute_vif (vf : List (String × List Cell) → Nat → ℚ)
    (df : DataFrame) (features : List String) (add_constant : Bool) :
    Except PdError (List (String × ℚ)) :=
  match selectCols df features with
  | .error e => .error e
  | .ok sel =>
    let X := if add_constant then smAddConstant sel else sel
    .ok (X.enum.map (fun p => (p.2.1, vf X p.1)))

/-! Helper lemmas about column lookup and selection. -/

theorem getCol_not_mem (df : DataFrame) (c : String) (h : c ∉ df.columns) :
    df.getCol c = .error (.keyError c) := by
  have hf : df.cols.find? (fun p => p.1 == c) = none := by
    apply List.find?_eq_none.mpr
    intro p hp
    simp only [beq_iff_eq]
    intro hpc
    exact h (by rw [← hpc]; exact List.mem_map_of_mem Prod.fst hp)
  simp [DataFrame.getCol, hf]

theorem getCol_mem (df : DataFrame) (c : String) (h : c ∈ df.columns) :
    ∃ cells, df.getCol c = .ok cells := by
  have hs : (df.cols.find? (fun p => p.1 == c)).isSome := by
    rw [List.find?_isSome]
    obtain ⟨p, hp, hpc⟩ := List.mem_map.mp h
    exact ⟨p, hp, by simp [hpc]⟩
  obtain ⟨p, hp⟩ := Option.isSome_iff_exists.mp hs
  exact ⟨p.2, by simp [DataFrame.getCol, hp]⟩

theorem selectCols_error (df : DataFrame) :
    ∀ (features : List String) (f : String), f ∈ features → f ∉ df.columns →
      ∃ c, c ∉ df.columns ∧ selectCols df features = .error (.keyError c)
  | [], f, hf, _ => absurd hf (List.not_mem_nil f)
  | g :: rest, f, hf, hmiss => by
    by_cases hg : g ∈ df.columns
    · have hfr : f ∈ rest := by
        rcases List.mem_cons.mp hf with h1 | h1
        · exact absurd hg (h1 ▸ hmiss)
        · exact h1
      obtain ⟨c, hc, hrec⟩ := selectCols_error df rest f hfr hmiss
      obtain ⟨cells, hcells⟩ := getCol_mem df g hg
      exact ⟨c, hc, by simp [selectCols, hcells, hrec]⟩
    · exact ⟨g, hg, by simp [selectCols, getCol_not_mem df g hg]⟩

/-- Claim C1, evaluated on the code: at AIC values 100 and 95 with the
default names, `compare_models_aic` prints the two AIC lines and the
preference verdict, but — its body having no return statement — hands
`none` back to the caller, not the documented mapping from each model
name to its AIC value. -/
theorem compare_models_aic_returns_none :
    (compare_models_aic ⟨-40, 100, 3, 200, 50⟩ ⟨-38, 95, 4, 200, 50⟩
        "Model 1" "Model 2").2 = none ∧
    ¬ (compare_models_aic ⟨-40, 100, 3, 200, 50⟩ ⟨-38, 95, 4, 200, 50⟩
        "Model 1" "Model 2").2 = some [("Model 1", 100), ("Model 2", 95)] :=
  ⟨rfl, by simp [compare_models_aic]⟩

/-- Claim C2, evaluated on the code: `likelihood_ratio_test` computes and
prints the test statistics, but — its body having no return statement —
hands `none` back to the caller rather than the documented record with
keys LR_statistic, degrees_of_freedom and p_value. -/
theorem likelihood_ratio_test_returns_none (chi2_sf : ℚ → ℚ → ℚ) :
    (likelihood_ratio_test chi2_sf ⟨-500, 0, 3, 0, 0⟩ ⟨-490, 0, 4, 0, 0⟩
        "Model 1" "Model 2").2 = none :=
  rfl

/-- Claim C3: `likelihood_ratio_test` computes
`LR = 2 * (model2.llf - model1.llf)`,
`df = (model2.df_model + 1) - model1.df_model` and the p-value as the
chi-squared upper tail at `(LR, df)`; at log-likelihoods −500/−490 and
df_model 3/4 this gives LR = 20 and df = 2. -/
theorem likelihood_ratio_test_computation (chi2_sf : ℚ → ℚ → ℚ)
    (m1 m2 : ModelResult) (n1 n2 : String) :
    (likelihood_ratio_test chi2_sf m1 m2 n1 n2).1.take 4 =
      [OutEvent.lrtHeader n1 n2,
       OutEvent.lrtStatistic (2 * (m2.llf - m1.llf)),
       OutEvent.lrtDf ((m2.df_model + 1) - m1.df_model),
       OutEvent.lrtPValue
         (chi2_sf (2 * (m2.llf - m1.llf)) ((m2.df_model + 1) - m1.df_model))] ∧
    lrStatistic ⟨-500, 0, 3, 0, 0⟩ ⟨-490, 0, 4, 0, 0⟩ = 20 ∧
    lrDfDiff ⟨-500, 0, 3, 0, 0⟩ ⟨-490, 0, 4, 0, 0⟩ = 2 := by
  refine ⟨rfl, ?_, ?_⟩ <;> norm_num [lrStatistic, lrDfDiff]

/-- Claim C4: `compute_pseudo_r2` returns the two-row table tagged with
the model name, with `r2ML = 1 - (llh_null / llf)` for
`llh_null = null_deviance / -2` and `r2CU = r2ML / (1 - llh_null / nobs)`;
at null_deviance 200, llf −80, nobs 50 the r2ML row carries −1/4. -/
theorem compute_pseudo_r2_spec (m : ModelResult) (name : String) :
    compute_pseudo_r2 m name =
      [⟨name, "r2ML", 1 - ((m.null_deviance / (-2)) / m.llf)⟩,
       ⟨name, "r2CU",
         (1 - ((m.null_deviance / (-2)) / m.llf)) /
           (1 - ((m.null_deviance / (-2)) / m.nobs))⟩] ∧
    compute_pseudo_r2 ⟨-80, 0, 0, 200, 50⟩ "Model" =
      [⟨"Model", "r2ML", -(1/4)⟩, ⟨"Model", "r2CU", -(1/12)⟩] := by
  refine ⟨rfl, ?_⟩
  norm_num [compute_pseudo_r2]

/-- Claim C6: the weekday/weekend chart writes its binary column into a
copy of the frame, so the caller's DataFrame after the call is the very
frame passed in — same columns, same values. -/
theorem weekend_chart_preserves_caller_frame (df : DataFrame)
    (dayCol valueCol binaryCol : String) (weekendDays : Option (List String)) :
    (plot_avg_accidents_weekday_vs_weekend df dayCol valueCol binaryCol
        weekendDays).1 = df ∧
    (plot_avg_accidents_weekday_vs_weekend df dayCol valueCol binaryCol
        weekendDays).1.cols = df.cols :=
  ⟨rfl, rfl⟩

/-- Claim C9: repeating a chart call with identical inputs yields
identical aggregated data — a second weekday/weekend call on the caller's
frame after a first call returns the same aggregated rows, and
`plot_accidents_by_day` on that frame returns what it returns on the
original. -/
theorem chart_functions_deterministic (df : DataFrame)
    (dayCol valueCol binaryCol d v : String)
    (weekendDays : Option (List String)) (dayOrder : Option (List String)) :
    (plot_avg_accidents_weekday_vs_weekend
        (plot_avg_accidents_weekday_vs_weekend df dayCol valueCol binaryCol
          weekendDays).1
        dayCol valueCol binaryCol weekendDays).2 =
      (plot_avg_accidents_weekday_vs_weekend df dayCol valueCol binaryCol
        weekendDays).2 ∧
    plot_accidents_by_day
        (plot_avg_accidents_weekday_vs_weekend df dayCol valueCol binaryCol
          weekendDays).1 d v dayOrder =
      plot_accidents_by_day df d v dayOrder :=
  ⟨rfl, rfl⟩

/-- A concrete accident table: per-day sums Samedi = 4 + 6 = 10,
Dimanche = 20, and 5 for each weekday (Lundi split as 2 + 3). -/
def exampleWeekDf : DataFrame :=
  ⟨[("Day", [Cell.str "Samedi", Cell.str "Samedi", Cell.str "Dimanche",
             Cell.str "Lundi", Cell.str "Lundi", Cell.str "Mardi",
             Cell.str "Mercredi", Cell.str "Jeudi", Cell.str "Vendredi"]),
    ("Accidents", [Cell.num 4, Cell.num 6, Cell.num 20, Cell.num 2,
                   Cell.num 3, Cell.num 5, Cell.num 5, Cell.num 5,
                   Cell.num 5])]⟩

/-- Claim C5: the weekday/weekend chart aggregates in two stages — sum
per exact day, then mean of the per-day sums per label.  On data with
per-day sums Samedi 10, Dimanche 20 and 5 per weekday it yields Weekend
average 15 and Weekday average 5, and not the flat per-row means (10 for
the weekend rows 4, 6, 20 and 25/6 for the weekday rows 2, 3, 5, 5, 5). -/
theorem weekend_chart_two_stage_aggregation :
    (plot_avg_accidents_weekday_vs_weekend exampleWeekDf "Day" "Accidents"
        "Weekend" none).2 =
      .ok [(Cell.str "Weekday", 5), (Cell.str "Weekend", 15)] ∧
    (plot_avg_accidents_weekday_vs_weekend exampleWeekDf "Day" "Accidents"
        "Weekend" none).2 ≠
      .ok [(Cell.str "Weekday", 25/6), (Cell.str "Weekend", 10)] := by
  have h :
      (plot_avg_accidents_weekday_vs_weekend exampleWeekDf "Day" "Accidents"
          "Weekend" none).2 =
        .ok [(Cell.str "Weekday", 5), (Cell.str "Weekend", 15)] := by
    simp +decide [plot_avg_accidents_weekday_vs_weekend, groupbySum2,
      DataFrame.getCol, DataFrame.copy, DataFrame.setCol, DataFrame.columns,
      exampleWeekDf, numsOf, uniqueKeys, sumVals, meanBy, weekendLabel,
      isWeekend, Cell.le, Cell.lt, List.insertionSort, List.orderedInsert,
      List.find?, List.zipWith, List.filterMap]
    norm_num
  refine ⟨h, ?_⟩
  rw [h]
  intro hcontra
  have h5 := (Except.ok.injEq _ _).mp hcontra
  simp at h5

/-- Claim C7: nothing is caught or translated — when a requested feature
column is absent, `compute_vif` surfaces the underlying `KeyError` for a
missing column and yields no result, and `plot_accidents_by_day` with a
missing day column likewise surfaces the `KeyError` naming that column. -/
theorem errors_propagate_unwrapped
    (vf : List (String × List Cell) → Nat → ℚ) (df : DataFrame)
    (features : List String) (add_constant : Bool) (f : String)
    (dayCol valueCol : String) (dayOrder : Option (List String))
    (hf : f ∈ features) (hmiss : f ∉ df.columns) (hday : dayCol ∉ df.columns) :
    (∃ c, c ∉ df.columns ∧
      compute_vif vf df features add_constant = .error (.keyError c)) ∧
    plot_accidents_by_day df dayCol valueCol dayOrder =
      .error (.keyError dayCol) := by
  constructor
  · obtain ⟨c, hc, hsel⟩ := selectCols_error df features f hf hmiss
    exact ⟨c, hc, by simp [compute_vif, hsel]⟩
  · simp [plot_accidents_by_day, groupbySum, getCol_not_mem df dayCol hday]

/-- Witness for C7: on the concrete frame, `compute_vif` asked for the
absent column Speed and `plot_accidents_by_day` asked to group by the
absent column Jour both surface the underlying `KeyError`. -/
theorem errors_propagate_unwrapped_witness :
    ("Speed" ∈ ["Speed"] ∧ "Speed" ∉ exampleWeekDf.columns ∧
      "Jour" ∉ exampleWeekDf.columns) ∧
    ((∃ c, c ∉ exampleWeekDf.columns ∧
        compute_vif (fun _ _ => 0) exampleWeekDf ["Speed"] true =
          .error (.keyError c)) ∧
      plot_accidents_by_day exampleWeekDf "Jour" "Accidents" none =
        .error (.keyError "Jour")) :=
  ⟨⟨by decide, by decide, by decide⟩,
   errors_propagate_unwrapped (fun _ _ => 0) exampleWeekDf ["Speed"] true
     "Speed" "Jour" "Accidents" none (by decide) (by decide) (by decide)⟩

/-! Helper lemmas for the categorical sort. -/

theorem listPos_lt_length {s : String} :
    ∀ {l : List String} {i : Nat}, listPos s l = some i → i < l.length
  | [], i, h => by simp [listPos] at h
  | t :: rest, i, h => by
    simp only [List.length_cons]
    by_cases ht : t = s
    · simp [listPos, ht] at h
      omega
    · simp only [listPos, if_neg ht, Option.map_eq_some'] at h
      obtain ⟨j, hj, hji⟩ := h
      have := listPos_lt_length hj
      omega

theorem plot_accidents_by_day_ok (df : DataFrame) (d v : String)
    (dor : List String) (rows : List (Cell × ℚ))
    (h : plot_accidents_by_day df d v (some dor) = .ok rows) :
    ∃ dc, groupbySum df d v = .ok dc ∧
      rows = List.insertionSort
        (fun a b : Cell × ℚ => catRank dor a.1 ≤ catRank dor b.1) dc := by
  unfold plot_accidents_by_day at h
  cases hg : groupbySum df d v with
  | error e => rw [hg] at h; simp at h
  | ok dc =>
    rw [hg] at h
    simp only [Option.getD_some, Except.ok.injEq] at h
    exact ⟨dc, rfl, h.symm⟩

instance catRankTotal (dor : List String) :
    IsTotal (Cell × ℚ) (fun a b => catRank dor a.1 ≤ catRank dor b.1) :=
  ⟨fun _ _ => Nat.le_total _ _⟩

instance catRankTrans (dor : List String) :
    IsTrans (Cell × ℚ) (fun a b => catRank dor a.1 ≤ catRank dor b.1) :=
  ⟨fun _ _ _ hab hbc => Nat.le_trans hab hbc⟩

/-- Claim C8: `plot_accidents_by_day` with `day_order` omitted behaves
exactly as with the canonical Monday-to-Sunday list, and the rows it
returns are sorted by position in the supplied `day_order` list. -/
theorem day_order_configurable (df : DataFrame) (d v : String)
    (dor : List String) (rows : List (Cell × ℚ))
    (h : plot_accidents_by_day df d v (some dor) = .ok rows) :
    plot_accidents_by_day df d v none =
      plot_accidents_by_day df d v (some defaultDayOrder) ∧
    rows.Pairwise (fun a b => catRank dor a.1 ≤ catRank dor b.1) := by
  refine ⟨rfl, ?_⟩
  obtain ⟨dc, _, hrows⟩ := plot_accidents_by_day_ok df d v dor rows h
  rw [hrows]
  exact List.sorted_insertionSort _ dc

/-- Claim C10: a grouped day label absent from `day_order` is no error:
the call still returns the aggregated rows (a permutation of the grouped
data), the absent label gets the null category, and every null-category
row sorts after all listed ones (no row with the null category is
followed by a listed-category row). -/
theorem unlisted_labels_sort_last (df : DataFrame) (d v : String)
    (dor : List String) (dc : List (Cell × ℚ))
    (hg : groupbySum df d v = .ok dc) :
    ∃ rows, plot_accidents_by_day df d v (some dor) = .ok rows ∧
      rows.Perm dc ∧
      rows.Pairwise
        (fun a b => catPos dor a.1 = none → catPos dor b.1 = none) := by
  refine ⟨List.insertionSort
      (fun a b : Cell × ℚ => catRank dor a.1 ≤ catRank dor b.1) dc,
    ?_, ?_, ?_⟩
  · simp [plot_accidents_by_day, hg]
  · exact List.perm_insertionSort _ dc
  · refine List.Pairwise.imp ?_ (List.sorted_insertionSort _ dc)
    intro a b hab hnone
    cases hb : catPos dor b.1 with
    | none => rfl
    | some i =>
      exfalso
      have hi : i < dor.length := by
        cases hcell : b.1 with
        | num q => rw [hcell] at hb; simp [catPos] at hb
        | str s =>
          rw [hcell] at hb
          exact listPos_lt_length (by simpa [catPos] using hb)
      have hle : dor.length ≤ i := by
        have h1 : catRank dor a.1 = dor.length := by
          simp [catRank, hnone]
        have h2 : catRank dor b.1 = i := by
          simp [catRank, hb]
        rw [h1, h2] at hab
        exact hab
      omega

/-- Witness for C8: with `day_order = ["Vendredi", "Samedi"]` the chart's
rows open with Vendredi then Samedi, the omitted-argument call matches
the canonical-list call, and the rows are sorted by the supplied order. -/
theorem day_order_configurable_witness :
    plot_accidents_by_day exampleWeekDf "Day" "Accidents"
        (some ["Vendredi", "Samedi"]) =
      .ok [(Cell.str "Vendredi", 5), (Cell.str "Samedi", 10),
           (Cell.str "Dimanche", 20), (Cell.str "Jeudi", 5),
           (Cell.str "Lundi", 5), (Cell.str "Mardi", 5),
           (Cell.str "Mercredi", 5)] ∧
    (plot_accidents_by_day exampleWeekDf "Day" "Accidents" none =
        plot_accidents_by_day exampleWeekDf "Day" "Accidents"
          (some defaultDayOrder) ∧
      List.Pairwise
        (fun a b => catRank ["Vendredi", "Samedi"] a.1 ≤
          catRank ["Vendredi", "Samedi"] b.1)
        ([(Cell.str "Vendredi", 5), (Cell.str "Samedi", 10),
          (Cell.str "Dimanche", 20), (Cell.str "Jeudi", 5),
          (Cell.str "Lundi", 5), (Cell.str "Mardi", 5),
          (Cell.str "Mercredi", 5)] : List (Cell × ℚ))) := by
  have h : plot_accidents_by_day exampleWeekDf "Day" "Accidents"
      (some ["Vendredi", "Samedi"]) =
    .ok [(Cell.str "Vendredi", 5), (Cell.str "Samedi", 10),
         (Cell.str "Dimanche", 20), (Cell.str "Jeudi", 5),
         (Cell.str "Lundi", 5), (Cell.str "Mardi", 5),
         (Cell.str "Mercredi", 5)] := by
    simp +decide [plot_accidents_by_day, groupbySum, DataFrame.getCol,
      exampleWeekDf, numsOf, uniqueKeys, sumVals, Cell.le, catRank, catPos,
      listPos, List.insertionSort, List.orderedInsert, List.find?,
      List.zipWith, List.filterMap]
    norm_num
  exact ⟨h, day_order_configurable exampleWeekDf "Day" "Accidents"
    ["Vendredi", "Samedi"] _ h⟩

/-- Witness for C10: grouping the concrete frame succeeds, and with
`day_order = ["Vendredi", "Samedi"]` the five unlisted day labels are no
error — the call returns a permutation of the grouped rows in which no
null-category row precedes a listed one. -/
theorem unlisted_labels_sort_last_witness :
    groupbySum exampleWeekDf "Day" "Accidents" =
      .ok [(Cell.str "Dimanche", 20), (Cell.str "Jeudi", 5),
           (Cell.str "Lundi", 5), (Cell.str "Mardi", 5),
           (Cell.str "Mercredi", 5), (Cell.str "Samedi", 10),
           (Cell.str "Vendredi", 5)] ∧
    (∃ rows, plot_accidents_by_day exampleWeekDf "Day" "Accidents"
          (some ["Vendredi", "Samedi"]) = .ok rows ∧
        rows.Perm [(Cell.str "Dimanche", 20), (Cell.str "Jeudi", 5),
           (Cell.str "Lundi", 5), (Cell.str "Mardi", 5),
           (Cell.str "Mercredi", 5), (Cell.str "Samedi", 10),
           (Cell.str "Vendredi", 5)] ∧
        rows.Pairwise
          (fun a b => catPos ["Vendredi", "Samedi"] a.1 = none →
            catPos ["Vendredi", "Samedi"] b.1 = none)) := by
  have hg : groupbySum exampleWeekDf "Day" "Accidents" =
      .ok [(Cell.str "Dimanche", 20), (Cell.str "Jeudi", 5),
           (Cell.str "Lundi", 5), (Cell.str "Mardi", 5),
           (Cell.str "Mercredi", 5), (Cell.str "Samedi", 10),
           (Cell.str "Vendredi", 5)] := by
    simp +decide [groupbySum, DataFrame.getCol, exampleWeekDf, numsOf,
      uniqueKeys, sumVals, Cell.le, List.insertionSort, List.orderedInsert,
      List.find?, List.zipWith, List.filterMap]
    norm_num
  exact ⟨hg, unlisted_labels_sort_last exampleWeekDf "Day" "Accidents"
    ["Vendredi", "Samedi"] _ hg⟩

end MiniProject
